import Mathlib

/-
Verification development for the Vertica metadata-ingestion source
(vishalkSimplify/datahub): a shallow embedding, in Lean 4, of the
type-mapping, crawling, dedup/filter, lineage, emission and
reconciliation code under
  base.py,
  metadata-ingestion/src/datahub/ingestion/source/vertica/common.py, and
  metadata-ingestion/src/datahub/ingestion/source/sql/vertica.py,
together with theorems settling the specification claims about it.
Pure fragments of the Python become Lean functions; Python exceptions
become `Except` errors; the SQLAlchemy inspector and other external
collaborators become explicit function-valued parameters.
-/

namespace DatahubVertica

/-- Python `str.startswith` over character lists: `isPrefixL pat s` is true when
`pat` is an initial segment of `s`. -/
def isPrefixL : List Char → List Char → Bool
  | [], _ => true
  | _ :: _, [] => false
  | p :: ps, c :: cs => p == c && isPrefixL ps cs

/-- Python `str.startswith`. -/
def pyStartswith (s pat : String) : Bool :=
  isPrefixL pat.toList s.toList

/-- Index of the first occurrence of `needle` in `hay`, if any
(the search underlying Python `str.find`). -/
def firstIdxOfSub : List Char → List Char → Option Nat
  | [], needle => if needle.isEmpty then some 0 else none
  | c :: rest, needle =>
      if isPrefixL needle (c :: rest) then some 0
      else (firstIdxOfSub rest needle).map (· + 1)

/-- Python `str.find`: lowest index of the substring, `-1` when absent. -/
def pyFind (s sub : String) : Int :=
  match firstIdxOfSub s.toList sub.toList with
  | some n => (n : Int)
  | none => -1

/-- Embedding of `PLATFORM_TO_SQLALCHEMY_URI_TESTER_MAP` from vertica/common.py lines
132-160: an ordered association of platform names to URI testers.  The entries
generated by `_platform_alchemy_uri_tester_gen` test `startswith` of the
platform name (or the explicit `opt_starts_with`); the `redshift` entry is the
hand-written lambda of lines 146-153, placed before `postgres` on purpose. -/
def PLATFORM_TO_SQLALCHEMY_URI_TESTER_MAP : List (String × (String → Bool)) :=
  [ ("athena", fun x => pyStartswith x "awsathena"),
    ("bigquery", fun x => pyStartswith x "bigquery"),
    ("clickhouse", fun x => pyStartswith x "clickhouse"),
    ("druid", fun x => pyStartswith x "druid"),
    ("hana", fun x => pyStartswith x "hana"),
    ("hive", fun x => pyStartswith x "hive"),
    ("mongodb", fun x => pyStartswith x "mongodb"),
    ("mssql", fun x => pyStartswith x "mssql"),
    ("mysql", fun x => pyStartswith x "mysql"),
    ("oracle", fun x => pyStartswith x "oracle"),
    ("pinot", fun x => pyStartswith x "pinot"),
    ("presto", fun x => pyStartswith x "presto"),
    ("redshift", fun x =>
      ((pyStartswith x "jdbc:postgres:" || pyStartswith x "postgresql")
          && decide (0 < pyFind x "redshift.amazonaws"))
        || pyStartswith x "redshift"),
    ("postgres", fun x => pyStartswith x "postgresql"),
    ("snowflake", fun x => pyStartswith x "snowflake"),
    ("trino", fun x => pyStartswith x "trino"),
    ("vertica", fun x => pyStartswith x "vertica") ]

/-- The `for platform, tester in ...: if tester(uri): return platform` loop of
`get_platform_from_sqlalchemy_uri` (vertica/common.py lines 163-167). -/
def findPlatform : List (String × (String → Bool)) → String → String
  | [], _ => "external"
  | (p, t) :: rest, uri => if t uri then p else findPlatform rest uri

/-- Embedding of `get_platform_from_sqlalchemy_uri` (vertica/common.py lines 163-167). -/
def get_platform_from_sqlalchemy_uri (uri : String) : String :=
  findPlatform PLATFORM_TO_SQLALCHEMY_URI_TESTER_MAP uri

/-- Compatibility of two would-be prefixes: they agree on their common length. -/
def agreeL : List Char → List Char → Bool
  | [], _ => true
  | _ :: _, [] => true
  | a :: as, b :: bs => a == b && agreeL as bs

theorem isPrefixL_agree :
    ∀ (s p q : List Char), isPrefixL p s = true → isPrefixL q s = true →
      agreeL p q = true := by
  intro s
  induction s with
  | nil =>
      intro p q hp hq
      cases p with
      | nil => rfl
      | cons a as => simp [isPrefixL] at hp
  | cons c cs ih =>
      intro p q hp hq
      cases p with
      | nil => rfl
      | cons a as =>
          cases q with
          | nil => rfl
          | cons b bs =>
              simp only [isPrefixL, Bool.and_eq_true, beq_iff_eq] at hp hq
              simp only [agreeL, Bool.and_eq_true, beq_iff_eq]
              exact ⟨hp.1.trans hq.1.symm, ih as bs hp.2 hq.2⟩

theorem pyStartswith_incompat (s p q : String)
    (h : pyStartswith s p = true) (hn : agreeL p.toList q.toList = false) :
    pyStartswith s q = false := by
  by_contra hc
  have hq : pyStartswith s q = true := by
    cases hv : pyStartswith s q
    · exact absurd hv hc
    · rfl
  have := isPrefixL_agree s.toList p.toList q.toList h hq
  rw [this] at hn
  cases hn

theorem findPlatform_eq_find (l : List (String × (String → Bool))) (uri : String) :
    findPlatform l uri
      = ((l.find? (fun pt => pt.2 uri)).map Prod.fst).getD "external" := by
  induction l with
  | nil => rfl
  | cons hd tl ih =>
      obtain ⟨p, t⟩ := hd
      by_cases ht : t uri = true
      · simp [findPlatform, List.find?, ht]
      · have ht2 : t uri = false := by
          cases hv : t uri
          · rfl
          · exact absurd hv ht
        simp [findPlatform, List.find?, ht2, ih]

/-- C10: for every URI string, `get_platform_from_sqlalchemy_uri` returns the
first platform in the fixed registration order whose tester accepts the URI
("external" when no tester accepts), and a URI starting with "postgresql" that
contains "redshift.amazonaws" at a positive index is classified "redshift",
not "postgres". -/
theorem get_platform_first_match_and_redshift :
    (∀ uri : String, get_platform_from_sqlalchemy_uri uri
        = ((PLATFORM_TO_SQLALCHEMY_URI_TESTER_MAP.find? (fun pt => pt.2 uri)).map
            Prod.fst).getD "external")
    ∧ (∀ uri : String, pyStartswith uri "postgresql" = true →
        0 < pyFind uri "redshift.amazonaws" →
        get_platform_from_sqlalchemy_uri uri = "redshift") := by
  constructor
  · intro uri
    exact findPlatform_eq_find _ uri
  · intro uri h hf
    have h1 : pyStartswith uri "awsathena" = false :=
      pyStartswith_incompat _ _ _ h (by decide)
    have h2 : pyStartswith uri "bigquery" = false :=
      pyStartswith_incompat _ _ _ h (by decide)
    have h3 : pyStartswith uri "clickhouse" = false :=
      pyStartswith_incompat _ _ _ h (by decide)
    have h4 : pyStartswith uri "druid" = false :=
      pyStartswith_incompat _ _ _ h (by decide)
    have h5 : pyStartswith uri "hana" = false :=
      pyStartswith_incompat _ _ _ h (by decide)
    have h6 : pyStartswith uri "hive" = false :=
      pyStartswith_incompat _ _ _ h (by decide)
    have h7 : pyStartswith uri "mongodb" = false :=
      pyStartswith_incompat _ _ _ h (by decide)
    have h8 : pyStartswith uri "mssql" = false :=
      pyStartswith_incompat _ _ _ h (by decide)
    have h9 : pyStartswith uri "mysql" = false :=
      pyStartswith_incompat _ _ _ h (by decide)
    have h10 : pyStartswith uri "oracle" = false :=
      pyStartswith_incompat _ _ _ h (by decide)
    have h11 : pyStartswith uri "pinot" = false :=
      pyStartswith_incompat _ _ _ h (by decide)
    have h12 : pyStartswith uri "presto" = false :=
      pyStartswith_incompat _ _ _ h (by decide)
    simp [get_platform_from_sqlalchemy_uri, PLATFORM_TO_SQLALCHEMY_URI_TESTER_MAP,
      findPlatform, h1, h2, h3, h4, h5, h6, h7, h8, h9, h10, h11, h12, h, hf]

/-- C10 witness: a concrete postgresql-prefixed Redshift URI is classified
"redshift". -/
theorem get_platform_redshift_witness :
    pyStartswith "postgresql.redshift.amazonaws" "postgresql" = true
    ∧ 0 < pyFind "postgresql.redshift.amazonaws" "redshift.amazonaws"
    ∧ get_platform_from_sqlalchemy_uri "postgresql.redshift.amazonaws" = "redshift" :=
  ⟨by decide, by decide,
    get_platform_first_match_and_redshift.2 _ (by decide) (by decide)⟩

/-- The SQLAlchemy type classes appearing as values of `ischema_names` in
base.py (plus `NULLTYPE`, the fallback for unrecognized names). -/
inductive STy
  | INTEGER | BIGINT | SMALLINT | CHAR | VARCHAR | NUMERIC | FLOAT | REAL
  | DOUBLE_PRECISION | TIMESTAMP | TIME | INTERVAL | DATE | DATETIME
  | BLOB | BYTEA | BOOLEAN | NULLTYPE
deriving DecidableEq, Repr

/-- Class name of an `STy`, used for Python `repr`-style messages. -/
def reprSTy : STy → String
  | .INTEGER => "INTEGER" | .BIGINT => "BIGINT" | .SMALLINT => "SMALLINT"
  | .CHAR => "CHAR" | .VARCHAR => "VARCHAR" | .NUMERIC => "NUMERIC"
  | .FLOAT => "FLOAT" | .REAL => "REAL" | .DOUBLE_PRECISION => "DOUBLE_PRECISION"
  | .TIMESTAMP => "TIMESTAMP" | .TIME => "TIME" | .INTERVAL => "INTERVAL"
  | .DATE => "DATE" | .DATETIME => "DATETIME" | .BLOB => "BLOB"
  | .BYTEA => "BYTEA" | .BOOLEAN => "BOOLEAN" | .NULLTYPE => "NULLTYPE"

/-- A value of the `ischema_names` dict: most entries are type classes, but
`TIMESTAMPTZ` and `TIMETZ` are pre-built instances (`TIMESTAMP(timezone=True)`
and `TIME(timezone=True)`). -/
inductive IschemaVal
  | cls (t : STy)
  | inst (t : STy) (timezone : Bool)
deriving DecidableEq, Repr

/-- Embedding of `ischema_names` from base.py lines 30-67, in source order. -/
def ischema_names : List (String × IschemaVal) :=
  [ ("INT", .cls .INTEGER), ("INTEGER", .cls .INTEGER), ("INT8", .cls .INTEGER),
    ("BIGINT", .cls .BIGINT), ("SMALLINT", .cls .SMALLINT),
    ("TINYINT", .cls .SMALLINT), ("CHAR", .cls .CHAR),
    ("VARCHAR", .cls .VARCHAR), ("VARCHAR2", .cls .VARCHAR),
    ("TEXT", .cls .VARCHAR), ("NUMERIC", .cls .NUMERIC),
    ("DECIMAL", .cls .NUMERIC), ("NUMBER", .cls .NUMERIC),
    ("MONEY", .cls .NUMERIC), ("FLOAT", .cls .FLOAT), ("FLOAT8", .cls .FLOAT),
    ("REAL", .cls .REAL), ("DOUBLE", .cls .DOUBLE_PRECISION),
    ("TIMESTAMP", .cls .TIMESTAMP), ("TIMESTAMP WITH TIMEZONE", .cls .TIMESTAMP),
    ("TIMESTAMPTZ", .inst .TIMESTAMP true), ("TIME", .cls .TIME),
    ("TIME WITH TIMEZONE", .cls .TIME), ("TIMETZ", .inst .TIME true),
    ("INTERVAL", .cls .INTERVAL), ("DATE", .cls .DATE),
    ("DATETIME", .cls .DATETIME), ("SMALLDATETIME", .cls .DATETIME),
    ("BINARY", .cls .BLOB), ("VARBINARY", .cls .BLOB), ("RAW", .cls .BLOB),
    ("BYTEA", .cls .BYTEA), ("BOOLEAN", .cls .BOOLEAN),
    ("LONG VARBINARY", .cls .BLOB), ("LONG VARCHAR", .cls .VARCHAR),
    ("GEOMETRY", .cls .BLOB) ]

/-- A positional constructor argument: either an int (from `int(...)` parses)
or a raw string piece from the comma-split of the parenthesized group. -/
inductive PyArg
  | pint (n : Int)
  | pstr (s : String)
deriving DecidableEq, Repr

/-- The keyword arguments `_get_column_info` can build (`timezone`,
`precision`, `fields`). -/
structure Kwargs where
  timezone : Option Bool := none
  precision : Option Int := none
  fields : Option String := none
deriving DecidableEq, Repr

/-- A constructed column type: the looked-up class together with the
positional and keyword arguments it was instantiated with. -/
structure ColType where
  base : STy
  args : List PyArg := []
  kwargs : Kwargs := {}
deriving DecidableEq, Repr

/-- The `column_info` dict returned by `_get_column_info`. -/
structure ColumnInfo where
  name : String
  type : ColType
  nullable : Bool
  default : Option String
  primary_key : Bool
  autoincrement : Bool
deriving DecidableEq, Repr

/-- Index of the last occurrence of a character. -/
def lastIdxOf (cs : List Char) (c : Char) : Option Nat :=
  (cs.reverse.findIdx? (· == c)).map (fun k => cs.length - 1 - k)

/-- Python `re.sub(r"\(.*\)", "", format_type)`: with greedy `.*` (and a single-line
subject, since `.` does not match a newline) the single match runs from the
first opening parenthesis to the last closing parenthesis after it. -/
def stripParenArgs (s : String) : String :=
  let cs := s.toList
  match cs.findIdx? (· == '('), lastIdxOf cs ')' with
  | some i, some j =>
      if i < j then String.mk (cs.take i ++ cs.drop (j + 1)) else s
  | _, _ => s

/-- Python `re.search(r"\(([\d,]+)\)", format_type)`: the first `(` followed by a
nonempty maximal run of digits and commas that is immediately closed by `)`;
the run is the captured group. -/
def findCharlenAux : List Char → Option (List Char)
  | [] => none
  | c :: rest =>
      if c == '(' then
        let run := rest.takeWhile (fun d => d.isDigit || d == ',')
        if !run.isEmpty && (rest.drop run.length).head? == some ')' then some run
        else findCharlenAux rest
      else findCharlenAux rest

/-- String-level wrapper for `findCharlenAux`. -/
def findCharlen (s : String) : Option String :=
  (findCharlenAux s.toList).map String.mk

/-- Python `re.search(r"\((.*)\)", format_type)`: the content between the first `(`
and the last `)` (greedy match). -/
def argsSearch (s : String) : Option String :=
  let cs := s.toList
  match cs.findIdx? (· == '('), lastIdxOf cs ')' with
  | some i, some j =>
      if i < j then some (String.mk ((cs.drop (i + 1)).take (j - i - 1))) else none
  | _, _ => none

/-- Whitespace for the `\s` regex class. -/
def isWs (c : Char) : Bool :=
  c == ' ' || c == '\t' || c == '\n' || c == '\r'

/-- Drop whitespace from the right end of a character list. -/
def trimRightL (cs : List Char) : List Char :=
  (cs.reverse.dropWhile isWs).reverse

/-- Split a character list at commas (Python `str.split(",")` shape:
an empty input yields one empty piece). -/
def splitOnCommaL : List Char → List (List Char)
  | [] => [[]]
  | c :: rest =>
      if c == ',' then [] :: splitOnCommaL rest
      else
        match splitOnCommaL rest with
        | [] => [[c]]
        | p :: ps => (c :: p) :: ps

/-- Trims the later pieces of `re.split(r"\s*,\s*", s)`: middle pieces lose
whitespace on both sides, the last piece only on its left. -/
def splitCommaWsGo : List (List Char) → List (List Char)
  | [] => []
  | [last] => [last.dropWhile isWs]
  | mid :: rest => (trimRightL (mid.dropWhile isWs)) :: splitCommaWsGo rest

/-- Python `re.split(r"\s*,\s*", s)`: split on commas, consuming whitespace adjacent
to each comma (outer whitespace of the whole string is kept). -/
def splitCommaWs (s : String) : List String :=
  (match splitOnCommaL s.toList with
    | [] => []
    | [only] => [only]
    | first :: rest => trimRightL first :: splitCommaWsGo rest).map String.mk

/-- Numeric value of a digit list. -/
def digitsVal : List Char → Nat → Nat
  | [], acc => acc
  | c :: rest, acc => digitsVal rest (acc * 10 + (c.toNat - 48))

/-- Python `int(s)` for the digit/comma strings arising from the charlen
group: succeeds exactly on nonempty all-digit strings. -/
def pyInt (s : String) : Except String Int :=
  if !s.toList.isEmpty && s.toList.all Char.isDigit then
    .ok (digitsVal s.toList 0 : Int)
  else .error ("ValueError: invalid literal for int() with base 10: " ++ s)

/-- A single-quote character (written by code point to keep source plain). -/
def pyQuote : String := String.mk [Char.ofNat 39]

/-- Wrap a string in single quotes, as the Python warning formatting does. -/
def quoted (s : String) : String := pyQuote ++ s ++ pyQuote

/-- Python `issubclass(coltype._type_affinity, sqltypes.Integer)`. -/
def isIntegerAffinity : STy → Bool
  | .INTEGER | .BIGINT | .SMALLINT => true
  | _ => false

/-- The literal prefix of the default-value regex: the characters of
`nextval(` followed by a single quote. -/
def nextvalPat : List Char := "nextval(".toList ++ [Char.ofNat 39]

/-- Python re.search for the nextval default pattern: finds the first
occurrence of the `nextvalPat` prefix followed by a nonempty quote-free run
(group 2) and a closing quote; group 3 is the tail from that quote to the
end of the string. -/
def nextvalSearch : List Char → Option (List Char × List Char)
  | [] => none
  | c :: rest =>
      if isPrefixL nextvalPat (c :: rest) then
        let after := (c :: rest).drop nextvalPat.length
        let g2 := after.takeWhile (fun d => d != Char.ofNat 39)
        let g3 := after.drop g2.length
        if !g2.isEmpty && g3.head? == some (Char.ofNat 39) then some (g2, g3)
        else nextvalSearch rest
      else nextvalSearch rest

/-- The default-value / autoincrement adjustment at the end of
`_get_column_info` (base.py lines 552-570): on a `nextval` match,
`autoincrement` is set when the column type has Integer affinity, and a
schema-less sequence name is rewritten with the quoted schema prepended. -/
def adjustDefault (ct : ColType) (schema : Option String)
    (default : Option String) : Bool × Option String :=
  match default with
  | none => (false, none)
  | some d =>
      match nextvalSearch d.toList with
      | none => (false, some d)
      | some (g2, g3) =>
          let autoinc := isIntegerAffinity ct.base
          match schema with
          | some sch =>
              if g2.contains '.' then (autoinc, some d)
              else
                (autoinc, some (String.mk nextvalPat ++ "\"" ++ sch ++ "\"" ++ "."
                  ++ String.mk g2 ++ String.mk g3))
          | none => (autoinc, some d)

/-- Calling the looked-up `ischema_names` value with `(*args, **kwargs)`.
The `TIMESTAMPTZ`/`TIMETZ` entries are pre-built instances
(`TIMESTAMP(timezone=True)` / `TIME(timezone=True)`); a SQLAlchemy
`TypeEngine` instance is not callable, so calling those raises `TypeError`.
For class entries the SQLAlchemy constructor signatures decide which calls
raise: `Integer` subclasses and `Date` accept no positional arguments,
`sqlalchemy.types.TIMESTAMP`/`TIME`/`DATETIME` accept a single `timezone`
argument but no `precision` keyword, postgresql `INTERVAL` accepts the
`precision` and `fields` keywords, `Numeric` up to four and `Float` up to
three positional arguments, `String`/`Boolean` up to two, and the binary
types one. -/
def applyColtype : IschemaVal → List PyArg → Kwargs → Except String ColType
  | .inst t _, _, _ =>
      .error ("TypeError: " ++ quoted (reprSTy t) ++ " object is not callable")
  | .cls t, args, kw =>
      match t with
      | .INTEGER | .BIGINT | .SMALLINT | .DATE =>
          if args.isEmpty then .ok ⟨t, args, kw⟩
          else .error ("TypeError: " ++ reprSTy t ++ " takes no arguments")
      | .TIMESTAMP | .TIME | .DATETIME =>
          if kw.precision.isSome then
            .error ("TypeError: unexpected keyword argument precision")
          else if args.length ≤ 1 then .ok ⟨t, args, kw⟩
          else .error ("TypeError: too many arguments")
      | .NUMERIC =>
          if args.length ≤ 4 then .ok ⟨t, args, kw⟩
          else .error ("TypeError: too many arguments")
      | .FLOAT | .REAL | .DOUBLE_PRECISION =>
          if args.length ≤ 3 then .ok ⟨t, args, kw⟩
          else .error ("TypeError: too many arguments")
      | .CHAR | .VARCHAR | .BOOLEAN =>
          if args.length ≤ 2 then .ok ⟨t, args, kw⟩
          else .error ("TypeError: too many arguments")
      | .BLOB | .BYTEA =>
          if args.length ≤ 1 then .ok ⟨t, args, kw⟩
          else .error ("TypeError: too many arguments")
      | _ => .ok ⟨t, args, kw⟩

/-- The branch cascade of `_get_column_info` (base.py lines 504-534) that
normalizes `attype`, `args` and `kwargs` from the parsed pieces; `.error` is
a raised `ValueError`. -/
def normalizeTypeArgs (attype0 : String) (charlen : Option String)
    (argsRaw : List PyArg) : Except String (String × List PyArg × Kwargs) :=
  if attype0 == "numeric" then
    match charlen with
    | some cl =>
        match (splitOnCommaL cl.toList).map String.mk with
        | [prec, scale] => do
            let p ← pyInt prec
            let sc ← pyInt scale
            .ok ("numeric", [PyArg.pint p, PyArg.pint sc], {})
        | _ => .error "ValueError: not enough or too many values to unpack"
    | none => .ok ("numeric", [], {})
  else if attype0 == "integer" then .ok ("integer", [], {})
  else if attype0 == "timestamptz" || attype0 == "timetz" then
    match charlen with
    | some cl => do
        let p ← pyInt cl
        .ok (attype0, [], { timezone := some true, precision := some p })
    | none => .ok (attype0, [], { timezone := some true })
  else if attype0 == "timestamp" || attype0 == "time" then
    match charlen with
    | some cl => do
        let p ← pyInt cl
        .ok (attype0, [], { timezone := some false, precision := some p })
    | none => .ok (attype0, [], { timezone := some false })
  else if pyStartswith attype0 "interval" then
    let fields :=
      if pyStartswith attype0 "interval " && 9 < attype0.length then
        some (attype0.drop 9)
      else none
    match charlen with
    | some cl => do
        let p ← pyInt cl
        .ok ("interval", [], { precision := some p, fields := fields })
    | none => .ok ("interval", [], { fields := fields })
  else
    match charlen with
    | some cl => do
        let n ← pyInt cl
        .ok (attype0, [PyArg.pint n], {})
    | none => .ok (attype0, argsRaw, {})

/-- Embedding of `VerticaDialect._get_column_info` (base.py lines 480-581).  Returns the
`column_info` dict together with the list of `util.warn` warnings emitted;
`.error` is a Python exception propagating out of the call. -/
def get_column_info (name format_type : String) (default : Option String)
    (nullable : Bool) (schema : Option String) (primary_key : Bool) :
    Except String (ColumnInfo × List String) := do
  let attype0 := stripParenArgs format_type
  let charlen := findCharlen format_type
  let argsRaw : List PyArg :=
    match argsSearch format_type with
    | some content =>
        if content.toList.isEmpty then []
        else (splitCommaWs content).map PyArg.pstr
    | none => []
  let (attype, args, kwargs) ← normalizeTypeArgs attype0 charlen argsRaw
  match ischema_names.lookup (String.mk (attype.toList.map Char.toUpper)) with
  | some v => do
      let ct ← applyColtype v args kwargs
      let (autoinc, default2) := adjustDefault ct schema default
      .ok ({ name := name, type := ct, nullable := nullable,
             default := default2, primary_key := primary_key,
             autoincrement := autoinc }, [])
  | none =>
      let ct : ColType := { base := .NULLTYPE }
      let (autoinc, default2) := adjustDefault ct schema default
      .ok ({ name := name, type := ct, nullable := nullable,
             default := default2, primary_key := primary_key,
             autoincrement := autoinc },
           ["Did not recognize type " ++ quoted attype ++ " of column "
             ++ quoted name])

/-- C1 (code bug): the native type string "decimal(10,2)" makes
`_get_column_info` raise.  `DECIMAL` is registered in `ischema_names` (mapped
to `NUMERIC`) and the spec says `decimal` takes two integer arguments like
`numeric`, but the special case at base.py line 504 matches only the exact
base name "numeric", so "decimal(10,2)" falls through to the final
`elif charlen:` branch (line 533) where `int("10,2")` raises ValueError,
which propagates out of the type-normalization step. -/
theorem get_column_info_decimal_raises :
    get_column_info "price" "decimal(10,2)" none true none false
      = .error "ValueError: invalid literal for int() with base 10: 10,2" := by
  rfl

/-- The `SQLSourceReport` dataclass of vertica/common.py lines 203-245:
per-run counters, the dropped list (`filtered`), and warning/failure entries
keyed by entity or schema. -/
structure SQLSourceReport where
  tables_scanned : Nat := 0
  views_scanned : Nat := 0
  Projection_scanned : Nat := 0
  models_scanned : Nat := 0
  Outh_scanned : Nat := 0
  entities_profiled : Nat := 0
  filtered : List String := []
  warnings : List (String × String) := []
  failures : List (String × String) := []
deriving DecidableEq, Repr

/-- Embedding of `SQLSourceReport.report_entity_scanned` (vertica/common.py lines 216-234):
the if/elif chain over the five known entity types; any other type raises
`KeyError` (so no counter was assigned). -/
def SQLSourceReport.report_entity_scanned (r : SQLSourceReport)
    (name ent_type : String) : Except String SQLSourceReport :=
  if ent_type == "table" then
    .ok { r with tables_scanned := r.tables_scanned + 1 }
  else if ent_type == "view" then
    .ok { r with views_scanned := r.views_scanned + 1 }
  else if ent_type == "projection" then
    .ok { r with Projection_scanned := r.Projection_scanned + 1 }
  else if ent_type == "models" then
    .ok { r with models_scanned := r.models_scanned + 1 }
  else if ent_type == "OAuth" then
    .ok { r with Outh_scanned := r.Outh_scanned + 1 }
  else .error ("KeyError: Unknown entity " ++ ent_type ++ ".")

/-- Embedding of `SQLSourceReport.report_dropped` (vertica/common.py lines 239-240). -/
def SQLSourceReport.report_dropped (r : SQLSourceReport) (ent_name : String) :
    SQLSourceReport :=
  { r with filtered := r.filtered ++ [ent_name] }

/-- Method `report_warning` of the report: appends a `(key, reason)` entry. -/
def SQLSourceReport.report_warning (r : SQLSourceReport) (key reason : String) :
    SQLSourceReport :=
  { r with warnings := r.warnings ++ [(key, reason)] }

/-- Method `report_failure` of the report: appends a `(key, reason)` entry. -/
def SQLSourceReport.report_failure (r : SQLSourceReport) (key reason : String) :
    SQLSourceReport :=
  { r with failures := r.failures ++ [(key, reason)] }

/-- The `VerticaSourceReport` dataclass (sql/vertica.py lines 61-76): its own
projection/model counters on top of the inherited report state. -/
structure VerticaSourceReport where
  projection_scanned : Nat := 0
  models_scanned : Nat := 0
  base : SQLSourceReport := {}
deriving DecidableEq, Repr

/-- Embedding of `VerticaSourceReport.report_entity_scanned` (sql/vertica.py lines 66-76):
"projection" and "models" are routed to the own counters of the subclass; every
other entity type is delegated to the superclass method.  The superclass
there is the `SQLSourceReport` of sql_common, whose code is not under src/, so the
delegation target is a parameter. -/
def VerticaSourceReport.report_entity_scanned
    (superF : SQLSourceReport → String → String → Except String SQLSourceReport)
    (r : VerticaSourceReport) (name ent_type : String) :
    Except String VerticaSourceReport :=
  if ent_type == "projection" then
    .ok { r with projection_scanned := r.projection_scanned + 1 }
  else if ent_type == "models" then
    .ok { r with models_scanned := r.models_scanned + 1 }
  else (superF r.base name ent_type).map (fun b => { r with base := b })

/-- C8: `SQLSourceReport.report_entity_scanned` raises KeyError for every
ent_type outside {"table","view","projection","models","OAuth"}, leaving
every counter unchanged (the raise precedes any assignment, so the returned
error carries no mutated state); and `VerticaSourceReport.report_entity_scanned`
accepts "projection" and "models" by routing them to its own counters, while
any other entity type is delegated unchanged to the superclass method. -/
theorem report_entity_scanned_key_error :
    ∀ (r : SQLSourceReport) (name t : String),
      t ∉ (["table", "view", "projection", "models", "OAuth"] : List String) →
      (SQLSourceReport.report_entity_scanned r name t
          = .error ("KeyError: Unknown entity " ++ t ++ "."))
      ∧ ∀ (superF : SQLSourceReport → String → String → Except String SQLSourceReport)
          (v : VerticaSourceReport),
          VerticaSourceReport.report_entity_scanned superF v name "projection"
            = .ok { v with projection_scanned := v.projection_scanned + 1 }
          ∧ VerticaSourceReport.report_entity_scanned superF v name "models"
            = .ok { v with models_scanned := v.models_scanned + 1 }
          ∧ VerticaSourceReport.report_entity_scanned superF v name t
            = (superF v.base name t).map (fun b => { v with base := b }) := by
  intro r name t ht
  have h1 : t ≠ "table" := by intro h; exact ht (by simp [h])
  have h2 : t ≠ "view" := by intro h; exact ht (by simp [h])
  have h3 : t ≠ "projection" := by intro h; exact ht (by simp [h])
  have h4 : t ≠ "models" := by intro h; exact ht (by simp [h])
  have h5 : t ≠ "OAuth" := by intro h; exact ht (by simp [h])
  refine ⟨?_, ?_⟩
  · simp [SQLSourceReport.report_entity_scanned, h1, h2, h3, h4, h5]
  · intro superF v
    refine ⟨?_, ?_, ?_⟩
    · simp [VerticaSourceReport.report_entity_scanned]
    · simp [VerticaSourceReport.report_entity_scanned]
    · simp [VerticaSourceReport.report_entity_scanned, h3, h4]

/-- C8 witness: the unknown entity type "dataset" raises KeyError on the base
report and is delegated by the Vertica report. -/
theorem report_entity_scanned_key_error_witness :
    ("dataset" ∉ (["table", "view", "projection", "models", "OAuth"] : List String))
    ∧ SQLSourceReport.report_entity_scanned {} "s1.t1" "dataset"
        = .error ("KeyError: Unknown entity " ++ "dataset" ++ ".") :=
  ⟨by decide, (report_entity_scanned_key_error {} "s1.t1" "dataset" (by decide)).1⟩

/-- Modelled from the spec: `StaleEntityRemovalHandler`
(datahub/ingestion/source/state/stale_entity_removal_handler.py) is not under
src/ — only its callers are (`add_entity_to_state`, common.py line 1309, and
`gen_removed_entity_workunits`, common.py line 787).  Per §4.6/RunCheckpoint
of the spec, the checkpoint is the set of entity identifiers of a run,
created empty and populated incrementally during emission. -/
structure CheckpointState where
  entities : List String := []
deriving DecidableEq, Repr

/-- Modelled from the spec: `add_entity_to_state` records one admitted
urn of one admitted entity into the checkpoint of the current run (called once per admitted
entity during emission, e.g. common.py line 1309). -/
def add_entity_to_state (st : CheckpointState) (urn : String) : CheckpointState :=
  { st with entities := st.entities ++ [urn] }

/-- Modelled from the spec: the checkpoint accumulated over a run that admits
`admitted`, starting from the empty state. -/
def runCheckpoint (admitted : List String) : CheckpointState :=
  admitted.foldl add_entity_to_state {}

/-- Modelled from the spec: `gen_removed_entity_workunits` (called at the end
of `get_workunits`, common.py line 787) emits one deletion record per stale
entity, where `stale = prior.entities − current.entities`; with no prior
checkpoint the stale set is empty and this is not an error. -/
def gen_removed_entity_workunits (prior : Option CheckpointState)
    (current : CheckpointState) : List String :=
  match prior with
  | none => []
  | some p => p.entities.filter (fun e => !(current.entities.contains e))

theorem runCheckpoint_entities (admitted : List String) :
    (runCheckpoint admitted).entities = admitted := by
  have aux : ∀ (l : List String) (st : CheckpointState),
      (l.foldl add_entity_to_state st).entities = st.entities ++ l := by
    intro l
    induction l with
    | nil => intro st; simp [List.foldl]
    | cons x xs ih =>
        intro st
        simp [List.foldl, add_entity_to_state, ih]
  simpa using aux admitted {}

/-- C7: the stale set for which deletion records are emitted equals the prior
checkpointed entity set of the prior run minus the admitted entity set of the current run
(each admitted entity having been added to the current checkpoint during
emission), and an absent prior checkpoint yields the empty stale set. -/
theorem reconciliation_set_law :
    ∀ (prior : Option CheckpointState) (admitted : List String),
      (∀ x, x ∈ gen_removed_entity_workunits prior (runCheckpoint admitted)
        ↔ ∃ p, prior = some p ∧ x ∈ p.entities ∧ x ∉ admitted)
      ∧ gen_removed_entity_workunits none (runCheckpoint admitted) = [] := by
  intro prior admitted
  constructor
  · intro x
    cases prior with
    | none => simp [gen_removed_entity_workunits]
    | some p =>
        simp [gen_removed_entity_workunits, List.mem_filter,
          runCheckpoint_entities]
  · rfl

/-- Python `str.lower` (ASCII), written over characters so it evaluates. -/
def pyLower (s : String) : String :=
  String.mk (s.toList.map Char.toLower)

/-- A row of the Vertica `v_catalog.view_tables` reference table: the derived
object (`table_name`, `table_schema`) and the base object it references. -/
structure ViewTableRow where
  table_name : String
  table_schema : String
  reference_table_name : String
  reference_table_schema : String
deriving DecidableEq, Repr

/-- Appending to a `defaultdict(list)` entry: extend the list at the key if
present, otherwise create a fresh singleton entry. -/
def mapAppendLineage (m : List (String × List (String × String × String)))
    (k : String) (v : String × String × String) :
    List (String × List (String × String × String)) :=
  if (m.lookup k).isSome then
    m.map (fun kv => if kv.1 == k then (kv.1, kv.2 ++ [v]) else kv)
  else m ++ [(k, [v])]

/-- Embedding of `Vertica_SQLAlchemySource._populate_view_lineage` (vertica/common.py lines
2378-2443): (1) the last row of `select reference_table_name ... where
table_name = view` becomes `refrence_table` (initialized to the empty
string); (2) the upstream query re-selects the rows whose `table_name` equals
the view; (3) the downstream query selects the rows whose
`reference_table_name` equals `refrence_table`; the lineage map gains, for
every downstream row and every upstream row, the lower-cased
`schema.name` pair with the `("[]", "[]")` empty column lists. -/
def populate_view_lineage (viewTables : List ViewTableRow) (view : String) :
    List (String × List (String × String × String)) :=
  let refTable :=
    (viewTables.filter (fun r => r.table_name == view)).foldl
      (fun _ r => r.reference_table_name) ""
  let upstreamRows := viewTables.filter (fun r => r.table_name == view)
  let downstreamRows :=
    viewTables.filter (fun r => r.reference_table_name == refTable)
  downstreamRows.foldl
    (fun m dr =>
      upstreamRows.foldl
        (fun m2 ur =>
          mapAppendLineage m2
            (pyLower (dr.table_schema ++ "." ++ dr.table_name))
            (pyLower (ur.reference_table_schema ++ "." ++ ur.reference_table_name),
              "[]", "[]"))
        m)
    []

/-- C3: for a schema `s1` containing exactly one view `v1` whose definition
references exactly one base table `t1` (a one-row reference table), lineage
resolution yields exactly one edge, from `s1.v1` downstream to `s1.t1`
upstream (lower-cased), with no duplicate and no other entries. -/
theorem view_lineage_single_edge :
    ∀ (s1 v1 t1 : String),
      populate_view_lineage [⟨v1, s1, t1, s1⟩] v1
        = [(pyLower (s1 ++ "." ++ v1), [(pyLower (s1 ++ "." ++ t1), "[]", "[]")])] := by
  intro s1 v1 t1
  simp [populate_view_lineage, mapAppendLineage, List.filter, List.foldl,
    List.lookup]

/-- The normalized type taxonomy of the metadata schema (the `TypeClass`
values of `_field_type_mapping`). -/
inductive SchemaTypeClass
  | NumberType | StringType | BooleanType | EnumType | BytesType
  | ArrayType | RecordType | DateType | TimeType | NullType
deriving DecidableEq, Repr

/-- The SQLAlchemy classes appearing as keys of `_field_type_mapping` and
`_known_unknown_field_types` (vertica/common.py lines 380-421), `Pg`-prefixed
ones being the postgresql dialect classes. -/
inductive STyClass
  | IntegerC | NumericC | BooleanC | EnumC | BinaryC | LargeBinaryC
  | PickleTypeC | ArrayC | StringC | DateC | DATEC | TimeC | DateTimeC
  | DATETIMEC | TIMESTAMPC | JSONC | PgBYTEA | PgDOUBLE_PRECISION | PgINET
  | PgMACADDR | PgMONEY | PgOID | PgREGCLASS | PgTIMESTAMP | PgTIME
  | PgINTERVAL | PgBIT | PgUUID | PgTSVECTOR | PgENUM | NullTypeC
  | IntervalC | CLOBC
deriving DecidableEq, Repr

/-- Python `isinstance` between the concrete column types produced by the Vertica
dialect (our `STy`) and the mapping-key classes, following the SQLAlchemy
class hierarchy: INTEGER/BIGINT/SMALLINT are `Integer` subclasses,
CHAR/VARCHAR are `String` subclasses, NUMERIC/FLOAT/REAL and postgresql
DOUBLE_PRECISION are `Numeric` subclasses, TIMESTAMP/DATETIME are `DateTime`
subclasses, TIME is a `Time` subclass, DATE a `Date` subclass, BLOB/BYTEA are
`LargeBinary` (hence `_Binary`) subclasses, postgresql INTERVAL is its own
class (not a `types.Interval` subclass), BOOLEAN is a `Boolean` subclass and
NULLTYPE is `NullType`. -/
def pyIsinstance (t : STy) (c : STyClass) : Bool :=
  match t, c with
  | .INTEGER, .IntegerC | .BIGINT, .IntegerC | .SMALLINT, .IntegerC => true
  | .CHAR, .StringC | .VARCHAR, .StringC => true
  | .NUMERIC, .NumericC | .FLOAT, .NumericC | .REAL, .NumericC => true
  | .DOUBLE_PRECISION, .NumericC | .DOUBLE_PRECISION, .PgDOUBLE_PRECISION => true
  | .TIMESTAMP, .DateTimeC | .TIMESTAMP, .TIMESTAMPC => true
  | .TIME, .TimeC => true
  | .DATETIME, .DateTimeC | .DATETIME, .DATETIMEC => true
  | .DATE, .DateC | .DATE, .DATEC => true
  | .INTERVAL, .PgINTERVAL => true
  | .BLOB, .LargeBinaryC | .BLOB, .BinaryC => true
  | .BYTEA, .LargeBinaryC | .BYTEA, .BinaryC | .BYTEA, .PgBYTEA => true
  | .BOOLEAN, .BooleanC => true
  | .NULLTYPE, .NullTypeC => true
  | _, _ => false

/-- Embedding of `_field_type_mapping` (vertica/common.py lines 380-417) in insertion
order. -/
def field_type_mapping : List (STyClass × SchemaTypeClass) :=
  [ (.IntegerC, .NumberType), (.NumericC, .NumberType),
    (.BooleanC, .BooleanType), (.EnumC, .EnumType), (.BinaryC, .BytesType),
    (.LargeBinaryC, .BytesType), (.PickleTypeC, .BytesType),
    (.ArrayC, .ArrayType), (.StringC, .StringType), (.DateC, .DateType),
    (.DATEC, .DateType), (.TimeC, .TimeType), (.DateTimeC, .TimeType),
    (.DATETIMEC, .TimeType), (.TIMESTAMPC, .TimeType), (.JSONC, .RecordType),
    (.PgBYTEA, .BytesType), (.PgDOUBLE_PRECISION, .NumberType),
    (.PgINET, .StringType), (.PgMACADDR, .StringType),
    (.PgMONEY, .NumberType), (.PgOID, .StringType),
    (.PgREGCLASS, .BytesType), (.PgTIMESTAMP, .TimeType),
    (.PgTIME, .TimeType), (.PgINTERVAL, .TimeType), (.PgBIT, .BytesType),
    (.PgUUID, .StringType), (.PgTSVECTOR, .BytesType), (.PgENUM, .EnumType),
    (.NullTypeC, .NullType) ]

/-- Embedding of `_known_unknown_field_types` (vertica/common.py lines 418-421). -/
def known_unknown_field_types : List STyClass := [.IntervalC, .CLOBC]

/-- Embedding of `get_column_type` (vertica/common.py lines 451-475): first matching
mapping key in insertion order; otherwise known-unknown types map silently to
NullType; otherwise NullType with a warning keyed by the dataset name. -/
def get_column_type (sql_report : SQLSourceReport) (dataset_name : String)
    (column_type : STy) : SchemaTypeClass × SQLSourceReport :=
  match field_type_mapping.find? (fun kv => pyIsinstance column_type kv.1) with
  | some kv => (kv.2, sql_report)
  | none =>
      if known_unknown_field_types.any (fun c => pyIsinstance column_type c) then
        (.NullType, sql_report)
      else
        (.NullType,
          sql_report.report_warning dataset_name
            ("unable to map type " ++ reprSTy column_type
              ++ " to metadata schema"))

/-- A column dict as consumed by `get_schema_fields_for_column`. -/
structure PyColumn where
  name : String
  type : STy
  full_type : Option String := none
  comment : Option String := none
  nullable : Bool := true
deriving DecidableEq, Repr

/-- The `pk_constraints` argument: Python `None`, a dict (whose
`constrained_columns` entry may be missing), or — for some dialects such as
hive — a list. -/
inductive PyPk
  | noneV
  | dict (constrained_columns : Option (List String))
  | list (l : List String)
deriving DecidableEq, Repr

/-- The guard of common.py lines 1767-1771: `pk_constraints is not None and
isinstance(pk_constraints, dict) and column["name"] in
pk_constraints.get("constrained_columns", [])`. -/
def pkHasColumn (pk : PyPk) (n : String) : Bool :=
  match pk with
  | .dict cc => (cc.getD []).contains n
  | _ => false

/-- A `SchemaField` record (globalTags kept as the plain tag list). -/
structure SchemaField where
  fieldPath : String
  type : SchemaTypeClass
  nativeDataType : String
  description : Option String
  nullable : Bool
  recursive : Bool
  globalTags : Option (List String)
  isPartOfKey : Bool := false
deriving DecidableEq, Repr

/-- Embedding of `get_schema_fields_for_column` (vertica/common.py lines 1746-1773):
builds exactly one SchemaField for the column and sets `isPartOfKey` on a
primary-key hit; returns the field list together with the report (which
`get_column_type` may have extended with a warning). -/
def get_schema_fields_for_column (rep : SQLSourceReport) (dataset_name : String)
    (column : PyColumn) (pk_constraints : PyPk) (tags : Option (List String)) :
    List SchemaField × SQLSourceReport :=
  let gtc : Option (List String) :=
    match tags with
    | some ts => if ts.isEmpty then none else some ts
    | none => none
  let ctr := get_column_type rep dataset_name column.type
  let field0 : SchemaField :=
    { fieldPath := column.name, type := ctr.1,
      nativeDataType := column.full_type.getD (reprSTy column.type),
      description := column.comment, nullable := column.nullable,
      recursive := false, globalTags := gtc, isPartOfKey := false }
  let field :=
    if pkHasColumn pk_constraints column.name then
      { field0 with isPartOfKey := true }
    else field0
  ([field], ctr.2)

/-- Embedding of `get_schema_fields` (vertica/common.py lines 1727-1744): the loop over
columns, extending `canonical_schema` with the fields of each column; the
per-column tag list is looked up only when the tag dict is truthy. -/
def get_schema_fields (rep : SQLSourceReport) (dataset_name : String)
    (columns : List PyColumn) (pk_constraints : PyPk)
    (tags : Option (List (String × List String))) :
    List SchemaField × SQLSourceReport :=
  match columns with
  | [] => ([], rep)
  | c :: cs =>
      let column_tags : Option (List String) :=
        match tags with
        | some td => if td.isEmpty then none else some ((td.lookup c.name).getD [])
        | none => none
      let fr := get_schema_fields_for_column rep dataset_name c pk_constraints
        column_tags
      let rest := get_schema_fields fr.2 dataset_name cs pk_constraints tags
      (fr.1 ++ rest.1, rest.2)

theorem pkHasColumn_iff (pk : PyPk) (n : String) :
    pkHasColumn pk n = true ↔ ∃ cc, pk = PyPk.dict cc ∧ n ∈ cc.getD [] := by
  cases pk <;> simp [pkHasColumn]

theorem get_schema_fields_cons (rep : SQLSourceReport) (ds : String)
    (c : PyColumn) (cs : List PyColumn) (pk : PyPk)
    (tags : Option (List (String × List String))) :
    ∃ f rep2, (get_schema_fields rep ds (c :: cs) pk tags).1
        = f :: (get_schema_fields rep2 ds cs pk tags).1
      ∧ f.fieldPath = c.name
      ∧ f.isPartOfKey = pkHasColumn pk c.name := by
  refine ⟨_, _, rfl, ?_, ?_⟩
  · rcases Bool.eq_false_or_eq_true (pkHasColumn pk c.name) with h | h <;>
      simp [get_schema_fields_for_column, h]
  · rcases Bool.eq_false_or_eq_true (pkHasColumn pk c.name) with h | h <;>
      simp [get_schema_fields_for_column, h]

/-- C9: `get_schema_fields` returns exactly one SchemaField per input column,
in the same order as the input list, and a field carries isPartOfKey = true
iff pk_constraints is a dict whose constrained_columns entry contains that
name of that column. -/
theorem get_schema_fields_one_field_per_column :
    ∀ (rep : SQLSourceReport) (ds : String) (cols : List PyColumn)
      (pk : PyPk) (tags : Option (List (String × List String))),
      (get_schema_fields rep ds cols pk tags).1.length = cols.length
      ∧ ∀ i, i < cols.length →
          ∃ f c, (get_schema_fields rep ds cols pk tags).1[i]? = some f
            ∧ cols[i]? = some c
            ∧ f.fieldPath = c.name
            ∧ (f.isPartOfKey = true
                ↔ ∃ cc, pk = PyPk.dict cc ∧ c.name ∈ cc.getD []) := by
  intro rep ds cols pk tags
  induction cols generalizing rep with
  | nil =>
      refine ⟨rfl, ?_⟩
      intro i hi
      exact absurd hi (by simp)
  | cons c cs ih =>
      obtain ⟨f, rep2, heq, hname, hkey⟩ :=
        get_schema_fields_cons rep ds c cs pk tags
      constructor
      · rw [heq]
        simp [(ih rep2).1]
      · intro i hi
        cases i with
        | zero =>
            refine ⟨f, c, ?_, by simp, hname, ?_⟩
            · rw [heq]; simp
            · rw [hkey]
              exact pkHasColumn_iff pk c.name
        | succ j =>
            have hj : j < cs.length := by
              simpa [Nat.succ_lt_succ_iff] using hi
            obtain ⟨f2, c2, hf, hc, hname2, hkey2⟩ := (ih rep2).2 j hj
            refine ⟨f2, c2, ?_, ?_, hname2, hkey2⟩
            · rw [heq]
              simpa using hf
            · simpa using hc

/-- C9 witness: a single integer primary-key column yields exactly one field,
named like the column, with isPartOfKey = true. -/
theorem get_schema_fields_witness :
    ∃ f c,
      (get_schema_fields {} "s1.t1" [{ name := "id", type := STy.INTEGER }]
          (PyPk.dict (some ["id"])) none).1[0]? = some f
      ∧ ([{ name := "id", type := STy.INTEGER }] : List PyColumn)[0]? = some c
      ∧ f.fieldPath = c.name
      ∧ (f.isPartOfKey = true
          ↔ ∃ cc, PyPk.dict (some ["id"]) = PyPk.dict cc ∧ c.name ∈ cc.getD []) :=
  (get_schema_fields_one_field_per_column {} "s1.t1"
    [{ name := "id", type := STy.INTEGER }] (PyPk.dict (some ["id"])) none).2
    0 (by decide)

/-- Kinds of work units emitted by the common.py processing methods. -/
inductive WUKind
  | container | snapshotMce | platformInstance | subTypes | domainRec
  | lineage | viewProps | tagsRec
deriving DecidableEq, Repr

/-- A work unit, tagged with the dataset name it was emitted for (the
snapshot `SqlWorkUnit` carries it as its id). -/
structure WU where
  id : String
  kind : WUKind
deriving DecidableEq, Repr

/-- The configuration surface the common.py loops consult: the allow/deny
patterns (their `allowed` predicates), whether a platform instance is
configured, and whether a domain pattern matches a dataset. -/
structure CommonCfg where
  table_pattern : String → Bool
  view_pattern : String → Bool
  platform_instance : Bool
  domain_allows : String → Bool

/-- The introspection collaborator of the common.py loops.  `get_table_names`
/ `get_view_names` return the enumeration or a raised exception;
`processTableExc`/`processViewExc` give the exception, if any, raised by the
collaborator calls inside `_process_table`/`_process_view` (all of which —
`get_pk_constraint`, `get_table_properties`, `get_db_name`, ... — run before
the first yield of that method); `view_tables` is the `v_catalog.view_tables`
relation behind the lineage queries; `extra_tags` says whether
`get_extra_tags` returned a truthy dict (the dialect under src/ always
returns `None`). -/
structure CommonInspector where
  get_table_names : String → Except String (List String)
  get_view_names : String → Except String (List String)
  processTableExc : String → Option String
  processViewExc : String → Option String
  view_tables : List ViewTableRow
  extra_tags : Bool

/-- Embedding of `Vertica_SQLAlchemySource._process_table` (vertica/common.py lines
1288-1388), as the sequence of work units it yields for one dataset: the
optional tags aspect, the container-membership units, the snapshot
`SqlWorkUnit` (status, properties and schema aspects inside), the
platform-instance aspect when configured, the sub-type aspect, and the
domain association when a domain pattern matches.  An exception from a
collaborator call surfaces as `.error` (they all precede the first yield). -/
def process_table_common (cfg : CommonCfg) (insp : CommonInspector)
    (dataset_name : String) : Except String (List WU) :=
  match insp.processTableExc dataset_name with
  | some e => .error e
  | none =>
      .ok ((if insp.extra_tags then [⟨dataset_name, WUKind.tagsRec⟩] else [])
        ++ [⟨dataset_name, WUKind.container⟩, ⟨dataset_name, WUKind.snapshotMce⟩]
        ++ (if cfg.platform_instance then [⟨dataset_name, WUKind.platformInstance⟩]
            else [])
        ++ [⟨dataset_name, WUKind.subTypes⟩]
        ++ (if cfg.domain_allows dataset_name then [⟨dataset_name, WUKind.domainRec⟩]
            else []))

/-- The `for table in inspector.get_table_names(schema)` body of
`Vertica_SQLAlchemySource.loop_tables` (vertica/common.py lines 892-923):
`standardize_schema_table_names` and `normalise_dataset_name` are the
identity and `get_identifier` returns `f"{schema}.{entity}"`, so the dataset
name is `schema ++ "." ++ table`; duplicate suppression via `tables_seen`
runs first, then `report_entity_scanned`, then the pattern filter, then the
per-entity try/except that records `Ingestion error` warnings keyed
`f"{schema}.{table}"`.  A `KeyError` from `report_entity_scanned` would
escape to the outer except and become a schema-keyed failure. -/
def loop_tables_go (cfg : CommonCfg) (insp : CommonInspector) (schema : String) :
    List String → List String → List WU → SQLSourceReport →
    List WU × SQLSourceReport
  | [], _, wus, r => (wus, r)
  | t :: ts, seen, wus, r =>
      let dataset_name := schema ++ "." ++ t
      if seen.contains dataset_name then
        loop_tables_go cfg insp schema ts seen wus r
      else
        match r.report_entity_scanned dataset_name "table" with
        | .error e => (wus, r.report_failure schema ("Tables error: " ++ e))
        | .ok r2 =>
            if cfg.table_pattern dataset_name then
              match process_table_common cfg insp dataset_name with
              | .ok ws =>
                  loop_tables_go cfg insp schema ts (dataset_name :: seen)
                    (wus ++ ws) r2
              | .error e =>
                  loop_tables_go cfg insp schema ts (dataset_name :: seen) wus
                    (r2.report_warning (schema ++ "." ++ t)
                      ("Ingestion error: " ++ e))
            else
              loop_tables_go cfg insp schema ts (dataset_name :: seen) wus
                (r2.report_dropped dataset_name)

/-- Embedding of `Vertica_SQLAlchemySource.loop_tables` (vertica/common.py lines 882-925):
the whole body sits in a try whose except records a failure keyed by the
schema name (`f"{schema}"`, message `Tables error: ...`); `get_extra_tags`
cannot raise (it catches internally). -/
def loop_tables (cfg : CommonCfg) (insp : CommonInspector) (schema : String) :
    List WU × SQLSourceReport :=
  match insp.get_table_names schema with
  | .error e =>
      ([], SQLSourceReport.report_failure {} schema ("Tables error: " ++ e))
  | .ok ts => loop_tables_go cfg insp schema ts [] [] {}

/-- The lineage-map entries: key is the lower-cased downstream name, values
the `(upstream, "[]", "[]")` tuples. -/
def LMap : Type := List (String × List (String × String × String))

/-- Embedding of `Vertica_SQLAlchemySource._get_upstream_lineage_info` (vertica/common.py
lines 2291-2376): populates `self._lineage_map` via `_populate_view_lineage`
when it is still `None`, looks up the entry of the dataset (a `defaultdict`, so a
missing key reads as the empty list), returns `None` for an empty lineage
list and otherwise the upstream table names.  Returns the possibly-populated
map alongside (the map is instance state reused by later views). -/
def get_upstream_lineage_info (lineageMap : Option LMap) (insp : CommonInspector)
    (dataset_name view : String) : Option (List String) × Option LMap :=
  let m : LMap :=
    match lineageMap with
    | none => populate_view_lineage insp.view_tables view
    | some m0 => m0
  let lineage := ((m : List (String × List (String × String × String))).lookup
    dataset_name).getD []
  if lineage.isEmpty then (none, some m)
  else (some (lineage.map (fun e => e.1)), some m)

/-- Embedding of `Vertica_SQLAlchemySource._process_view` (vertica/common.py lines
1859-1977), as the sequence of work units it yields: container membership,
the optional tags aspect, the snapshot `SqlWorkUnit`, the platform-instance
aspect when configured, the sub-type aspect, the view-properties aspect
(`properties["view_definition"]` is always set at line 1901, so it is always
emitted), and the domain association.  Collaborator exceptions (all raised
before the first yield) surface as `.error`. -/
def process_view_common (cfg : CommonCfg) (insp : CommonInspector)
    (dataset_name : String) : Except String (List WU) :=
  match insp.processViewExc dataset_name with
  | some e => .error e
  | none =>
      .ok ([⟨dataset_name, WUKind.container⟩]
        ++ (if insp.extra_tags then [⟨dataset_name, WUKind.tagsRec⟩] else [])
        ++ [⟨dataset_name, WUKind.snapshotMce⟩]
        ++ (if cfg.platform_instance then [⟨dataset_name, WUKind.platformInstance⟩]
            else [])
        ++ [⟨dataset_name, WUKind.subTypes⟩, ⟨dataset_name, WUKind.viewProps⟩]
        ++ (if cfg.domain_allows dataset_name then [⟨dataset_name, WUKind.domainRec⟩]
            else []))

/-- The `for view in inspector.get_view_names(schema)` body of
`Vertica_SQLAlchemySource.loop_views` (vertica/common.py lines 1783-1855).
Unlike the table/projection/model loops there is no seen-set: every
enumerated view is scanned, pattern-filtered, given its lineage work unit
(the `_lineage_map` state threads across iterations: it is populated only
when still `None`) and processed. -/
def loop_views_go (cfg : CommonCfg) (insp : CommonInspector) (schema : String) :
    List String → Option LMap → List WU → SQLSourceReport →
    List WU × SQLSourceReport
  | [], _, wus, r => (wus, r)
  | v :: vs, lm, wus, r =>
      let dataset_name := schema ++ "." ++ v
      match r.report_entity_scanned dataset_name "view" with
      | .error e => (wus, r.report_failure schema ("Views error: " ++ e))
      | .ok r2 =>
          if cfg.view_pattern dataset_name then
            let li := get_upstream_lineage_info lm insp dataset_name v
            let wus2 := match li.1 with
              | some _ => wus ++ [⟨dataset_name, WUKind.lineage⟩]
              | none => wus
            match process_view_common cfg insp dataset_name with
            | .ok ws => loop_views_go cfg insp schema vs li.2 (wus2 ++ ws) r2
            | .error e =>
                loop_views_go cfg insp schema vs li.2 wus2
                  (r2.report_warning (schema ++ "." ++ v)
                    ("Ingestion error: " ++ e))
          else
            loop_views_go cfg insp schema vs lm wus
              (r2.report_dropped dataset_name)

/-- Embedding of `Vertica_SQLAlchemySource.loop_views` (vertica/common.py lines
1775-1857): the body sits in a try whose except records a failure keyed by
the schema name (`Views error: ...`). -/
def loop_views (cfg : CommonCfg) (insp : CommonInspector) (schema : String) :
    List WU × SQLSourceReport :=
  match insp.get_view_names schema with
  | .error e =>
      ([], SQLSourceReport.report_failure {} schema ("Views error: " ++ e))
  | .ok vs => loop_views_go cfg insp schema vs none [] {}

/-- The schema loop of `get_workunits` (vertica/common.py lines 745-751)
restricted to `loop_tables`: per-schema work units and failure entries are
concatenated in schema order (the real code appends them to one shared
report as it iterates). -/
def common_run_schemas (cfg : CommonCfg) (insp : CommonInspector) :
    List String → List WU × List (String × String)
  | [] => ([], [])
  | s :: rest =>
      let one := loop_tables cfg insp s
      let more := common_run_schemas cfg insp rest
      (one.1 ++ more.1, one.2.failures ++ more.2)

/-- Dataset names kept at their first occurrence, mirroring the seen-set
discipline of the loops. -/
def firstOccAux (seen : List String) : List String → List String
  | [] => []
  | x :: xs =>
      if seen.contains x then firstOccAux seen xs
      else x :: firstOccAux (x :: seen) xs

/-- Ids of the snapshot (`SqlWorkUnit` MCE) records in an emitted sequence. -/
def snapshotIds (wus : List WU) : List String :=
  (wus.filter (fun w => w.kind == WUKind.snapshotMce)).map WU.id

/-- An allow-everything configuration with no platform instance, no domain. -/
def allowAllCfg : CommonCfg :=
  { table_pattern := fun _ => true, view_pattern := fun _ => true,
    platform_instance := false, domain_allows := fun _ => false }

/-- A configuration whose table pattern denies exactly `s1.t2`. -/
def dropT2Cfg : CommonCfg :=
  { table_pattern := fun d => d != "s1.t2", view_pattern := fun _ => true,
    platform_instance := false, domain_allows := fun _ => false }

/-- An inspector that enumerates the view `v1` twice. -/
def dupViewInspector : CommonInspector :=
  { get_table_names := fun _ => .ok [],
    get_view_names := fun _ => .ok ["v1", "v1"],
    processTableExc := fun _ => none, processViewExc := fun _ => none,
    view_tables := [], extra_tags := false }

/-- An inspector that enumerates `t1` twice and `t2` once. -/
def dupTableInspector : CommonInspector :=
  { get_table_names := fun _ => .ok ["t1", "t1", "t2"],
    get_view_names := fun _ => .ok [],
    processTableExc := fun _ => none, processViewExc := fun _ => none,
    view_tables := [], extra_tags := false }

/-- An inspector whose table processing raises on `s1.t1`. -/
def boomInspector : CommonInspector :=
  { get_table_names := fun _ => .ok ["t1"],
    get_view_names := fun _ => .ok [],
    processTableExc := fun d => if d == "s1.t1" then some "boom" else none,
    processViewExc := fun _ => none,
    view_tables := [], extra_tags := false }

/-- An inspector whose schema-level table enumeration raises. -/
def failInspector : CommonInspector :=
  { get_table_names := fun _ => .error "connection refused",
    get_view_names := fun _ => .ok [],
    processTableExc := fun _ => none, processViewExc := fun _ => none,
    view_tables := [], extra_tags := false }

theorem snapshotIds_append (a b : List WU) :
    snapshotIds (a ++ b) = snapshotIds a ++ snapshotIds b := by
  simp [snapshotIds]

theorem process_table_common_ok_snapshotIds (cfg : CommonCfg)
    (insp : CommonInspector) (d : String) (ws : List WU)
    (h : process_table_common cfg insp d = .ok ws) : snapshotIds ws = [d] := by
  unfold process_table_common at h
  cases hpe : insp.processTableExc d with
  | some e => rw [hpe] at h; cases h
  | none =>
      rw [hpe] at h
      injection h with h2
      subst h2
      rcases Bool.eq_false_or_eq_true insp.extra_tags with hx | hx <;>
        rcases Bool.eq_false_or_eq_true cfg.platform_instance with hpi | hpi <;>
          rcases Bool.eq_false_or_eq_true (cfg.domain_allows d) with hd | hd <;>
            simp [snapshotIds, hx, hpi, hd]

theorem loop_tables_go_spec (cfg : CommonCfg) (insp : CommonInspector)
    (schema : String) :
    ∀ (ts seen : List String) (wus : List WU) (r : SQLSourceReport),
      ((loop_tables_go cfg insp schema ts seen wus r).2.tables_scanned
          = r.tables_scanned
            + (firstOccAux seen (ts.map (fun t => schema ++ "." ++ t))).length)
      ∧ ((loop_tables_go cfg insp schema ts seen wus r).2.filtered
          = r.filtered
            ++ (firstOccAux seen (ts.map (fun t => schema ++ "." ++ t))).filter
                (fun d => !(cfg.table_pattern d)))
      ∧ ((loop_tables_go cfg insp schema ts seen wus r).2.failures = r.failures)
      ∧ ((loop_tables_go cfg insp schema ts seen wus r).2.warnings
          = r.warnings
            ++ (firstOccAux seen (ts.map (fun t => schema ++ "." ++ t))).filterMap
                (fun d =>
                  if cfg.table_pattern d then
                    (insp.processTableExc d).map
                      (fun e => (d, "Ingestion error: " ++ e))
                  else none)) := by
  intro ts
  induction ts with
  | nil =>
      intro seen wus r
      simp [loop_tables_go, firstOccAux]
  | cons t ts ih =>
      intro seen wus r
      by_cases hc : seen.contains (schema ++ "." ++ t) = true
      · simp only [loop_tables_go, List.map_cons, firstOccAux, hc, if_true]
        exact ih seen wus r
      · have hc2 : seen.contains (schema ++ "." ++ t) = false := by
          cases hv : seen.contains (schema ++ "." ++ t)
          · rfl
          · exact absurd hv hc
        by_cases hp : cfg.table_pattern (schema ++ "." ++ t) = true
        · cases hpe : insp.processTableExc (schema ++ "." ++ t) with
          | none =>
              obtain ⟨h1, h2, h3, h4⟩ :=
                ih ((schema ++ "." ++ t) :: seen)
                  (wus ++ ((if insp.extra_tags
                        then [⟨schema ++ "." ++ t, WUKind.tagsRec⟩] else [])
                    ++ [⟨schema ++ "." ++ t, WUKind.container⟩,
                        ⟨schema ++ "." ++ t, WUKind.snapshotMce⟩]
                    ++ (if cfg.platform_instance
                        then [⟨schema ++ "." ++ t, WUKind.platformInstance⟩]
                        else [])
                    ++ [⟨schema ++ "." ++ t, WUKind.subTypes⟩]
                    ++ (if cfg.domain_allows (schema ++ "." ++ t)
                        then [⟨schema ++ "." ++ t, WUKind.domainRec⟩] else [])))
                  { r with tables_scanned := r.tables_scanned + 1 }
              refine ⟨?_, ?_, ?_, ?_⟩ <;>
                simp only [loop_tables_go, List.map_cons, firstOccAux, hc2,
                  SQLSourceReport.report_entity_scanned, process_table_common,
                  hpe, hp, Bool.false_eq_true, if_false, if_true, beq_self_eq_true,
                  h1, h2, h3, h4] <;>
                simp [hp, hpe]
              omega
          | some e =>
              obtain ⟨h1, h2, h3, h4⟩ :=
                ih ((schema ++ "." ++ t) :: seen) wus
                  (SQLSourceReport.report_warning
                    { r with tables_scanned := r.tables_scanned + 1 }
                    (schema ++ "." ++ t) ("Ingestion error: " ++ e))
              refine ⟨?_, ?_, ?_, ?_⟩ <;>
                simp only [loop_tables_go, List.map_cons, firstOccAux, hc2,
                  SQLSourceReport.report_entity_scanned, process_table_common,
                  hpe, hp, Bool.false_eq_true, if_false, if_true, beq_self_eq_true,
                  h1, h2, h3, h4] <;>
                simp [SQLSourceReport.report_warning, hp, hpe]
              omega
        · have hp2 : cfg.table_pattern (schema ++ "." ++ t) = false := by
            cases hv : cfg.table_pattern (schema ++ "." ++ t)
            · rfl
            · exact absurd hv hp
          obtain ⟨h1, h2, h3, h4⟩ :=
            ih ((schema ++ "." ++ t) :: seen) wus
              (SQLSourceReport.report_dropped
                { r with tables_scanned := r.tables_scanned + 1 }
                (schema ++ "." ++ t))
          refine ⟨?_, ?_, ?_, ?_⟩ <;>
            simp only [loop_tables_go, List.map_cons, firstOccAux, hc2,
              SQLSourceReport.report_entity_scanned, hp2, Bool.false_eq_true,
              if_false, if_true, beq_self_eq_true, h1, h2, h3, h4] <;>
            simp [SQLSourceReport.report_dropped, hp2]
          omega

/-- C6: in the table loop, the scanned counter is incremented exactly once
per distinct dataset name, on the first sighting, regardless of pattern
rejection; the dropped list gains exactly the first-sighted names the
pattern rejects; and a duplicate sighting touches neither (duplicate
suppression runs before pattern filtering). -/
theorem loop_tables_counter_discipline :
    ∀ (cfg : CommonCfg) (insp : CommonInspector) (schema : String)
      (ts : List String),
      insp.get_table_names schema = .ok ts →
      (loop_tables cfg insp schema).2.tables_scanned
          = (firstOccAux [] (ts.map (fun t => schema ++ "." ++ t))).length
      ∧ (loop_tables cfg insp schema).2.filtered
          = (firstOccAux [] (ts.map (fun t => schema ++ "." ++ t))).filter
              (fun d => !(cfg.table_pattern d)) := by
  intro cfg insp schema ts h
  obtain ⟨h1, h2, _, _⟩ := loop_tables_go_spec cfg insp schema ts [] [] {}
  unfold loop_tables
  rw [h]
  exact ⟨by simpa using h1, by simpa using h2⟩

/-- C6 witness: enumerating `t1, t1, t2` under a pattern that denies `s1.t2`
scans two distinct names and drops exactly `s1.t2`. -/
theorem loop_tables_counter_discipline_witness :
    dupTableInspector.get_table_names "s1" = .ok ["t1", "t1", "t2"]
    ∧ ((loop_tables dropT2Cfg dupTableInspector "s1").2.tables_scanned
          = (firstOccAux []
              (["t1", "t1", "t2"].map (fun t => "s1" ++ "." ++ t))).length
        ∧ (loop_tables dropT2Cfg dupTableInspector "s1").2.filtered
          = (firstOccAux []
              (["t1", "t1", "t2"].map (fun t => "s1" ++ "." ++ t))).filter
              (fun d => !(dropT2Cfg.table_pattern d))) :=
  ⟨rfl, loop_tables_counter_discipline dropT2Cfg dupTableInspector "s1"
    ["t1", "t1", "t2"] rfl⟩

theorem loop_tables_go_snapshot_nodup (cfg : CommonCfg) (insp : CommonInspector)
    (schema : String) :
    ∀ (ts seen : List String) (wus : List WU) (r : SQLSourceReport),
      (∀ i ∈ snapshotIds wus, i ∈ seen) → (snapshotIds wus).Nodup →
      (snapshotIds (loop_tables_go cfg insp schema ts seen wus r).1).Nodup := by
  intro ts
  induction ts with
  | nil =>
      intro seen wus r _ hnd
      simpa [loop_tables_go] using hnd
  | cons t ts ih =>
      intro seen wus r hsub hnd
      by_cases hc : seen.contains (schema ++ "." ++ t) = true
      · simp only [loop_tables_go, hc, if_true]
        exact ih seen wus r hsub hnd
      · have hc2 : seen.contains (schema ++ "." ++ t) = false := by
          cases hv : seen.contains (schema ++ "." ++ t)
          · rfl
          · exact absurd hv hc
        have hnotmem : (schema ++ "." ++ t) ∉ seen := by
          simpa using hc2
        by_cases hp : cfg.table_pattern (schema ++ "." ++ t) = true
        · cases hpe : insp.processTableExc (schema ++ "." ++ t) with
          | none =>
              have hok : process_table_common cfg insp (schema ++ "." ++ t)
                  = .ok ((if insp.extra_tags
                        then [⟨schema ++ "." ++ t, WUKind.tagsRec⟩] else [])
                    ++ [⟨schema ++ "." ++ t, WUKind.container⟩,
                        ⟨schema ++ "." ++ t, WUKind.snapshotMce⟩]
                    ++ (if cfg.platform_instance
                        then [⟨schema ++ "." ++ t, WUKind.platformInstance⟩]
                        else [])
                    ++ [⟨schema ++ "." ++ t, WUKind.subTypes⟩]
                    ++ (if cfg.domain_allows (schema ++ "." ++ t)
                        then [⟨schema ++ "." ++ t, WUKind.domainRec⟩] else [])) := by
                simp [process_table_common, hpe]
              have hws := process_table_common_ok_snapshotIds cfg insp
                (schema ++ "." ++ t) _ hok
              simp only [loop_tables_go, hc2, Bool.false_eq_true, if_false,
                SQLSourceReport.report_entity_scanned, beq_self_eq_true, if_true,
                process_table_common, hpe, hp]
              apply ih
              · intro i hi
                rw [snapshotIds_append, hws] at hi
                rcases List.mem_append.mp hi with hi1 | hi2
                · exact List.mem_cons_of_mem _ (hsub i hi1)
                · simp at hi2
                  simp [hi2]
              · rw [snapshotIds_append, hws]
                refine List.Nodup.append hnd (by simp) ?_
                intro i hi1 hi2
                simp at hi2
                subst hi2
                exact hnotmem (hsub _ hi1)
          | some e =>
              simp only [loop_tables_go, hc2, Bool.false_eq_true, if_false,
                SQLSourceReport.report_entity_scanned, beq_self_eq_true, if_true,
                process_table_common, hpe, hp]
              apply ih
              · intro i hi
                exact List.mem_cons_of_mem _ (hsub i hi)
              · exact hnd
        · have hp2 : cfg.table_pattern (schema ++ "." ++ t) = false := by
            cases hv : cfg.table_pattern (schema ++ "." ++ t)
            · rfl
            · exact absurd hv hp
          simp only [loop_tables_go, hc2, Bool.false_eq_true, if_false,
            SQLSourceReport.report_entity_scanned, beq_self_eq_true, if_true,
            hp2]
          apply ih
          · intro i hi
            exact List.mem_cons_of_mem _ (hsub i hi)
          · exact hnd

/-- C2 amended theorem: the table loop admits no two entities with the same
qualified dataset name — the ids of the snapshot records it emits are
pairwise distinct (the projection and model loops maintain the same
seen-set discipline; the view loop of common.py does not, see the
counterexample). -/
theorem loop_tables_admitted_names_nodup :
    ∀ (cfg : CommonCfg) (insp : CommonInspector) (schema : String),
      (snapshotIds (loop_tables cfg insp schema).1).Nodup := by
  intro cfg insp schema
  unfold loop_tables
  cases h : insp.get_table_names schema with
  | error e => simp [snapshotIds]
  | ok ts =>
      exact loop_tables_go_snapshot_nodup cfg insp schema ts [] [] {}
        (by simp [snapshotIds]) (by simp [snapshotIds])

/-- C2 counterexample: in the common.py `loop_views` a view enumerated twice is
scanned twice and its records are emitted twice — the second occurrence is
neither skipped nor silent, so two admitted entities share the qualified
name `s1.v1`. -/
theorem loop_views_duplicate_reemitted :
    ((loop_views allowAllCfg dupViewInspector "s1").1.filter
        (fun w => w.kind == WUKind.snapshotMce && w.id == "s1.v1")).length = 2
    ∧ (loop_views allowAllCfg dupViewInspector "s1").2.views_scanned = 2 :=
  ⟨rfl, rfl⟩

/-- C5 amended theorem: an exception during schema-level table enumeration is
caught at the schema boundary, recorded as a single scan failure keyed by the
schema name, and the remaining schemas are still processed; when enumeration
succeeds, per-entity processing exceptions never produce schema-keyed
failures — they are recorded as warnings keyed `schema.table`, one per
admitted table whose processing raises, and the loop continues. -/
theorem schema_fault_containment :
    ∀ (cfg : CommonCfg) (insp : CommonInspector) (s : String),
      (∀ (e : String) (rest : List String),
        insp.get_table_names s = .error e →
        loop_tables cfg insp s
            = ([], SQLSourceReport.report_failure {} s ("Tables error: " ++ e))
          ∧ common_run_schemas cfg insp (s :: rest)
              = ((common_run_schemas cfg insp rest).1,
                  (s, "Tables error: " ++ e)
                    :: (common_run_schemas cfg insp rest).2))
      ∧ (∀ ts : List String,
          insp.get_table_names s = .ok ts →
          (loop_tables cfg insp s).2.failures = []
          ∧ (loop_tables cfg insp s).2.warnings
              = (firstOccAux [] (ts.map (fun t => s ++ "." ++ t))).filterMap
                  (fun d =>
                    if cfg.table_pattern d then
                      (insp.processTableExc d).map
                        (fun e => (d, "Ingestion error: " ++ e))
                    else none)) := by
  intro cfg insp s
  constructor
  · intro e rest h
    have hl : loop_tables cfg insp s
        = ([], SQLSourceReport.report_failure {} s ("Tables error: " ++ e)) := by
      unfold loop_tables
      rw [h]
    refine ⟨hl, ?_⟩
    simp [common_run_schemas, hl, SQLSourceReport.report_failure]
  · intro ts h
    obtain ⟨_, _, h3, h4⟩ := loop_tables_go_spec cfg insp s ts [] [] {}
    unfold loop_tables
    rw [h]
    exact ⟨by simpa using h3, by simpa using h4⟩

/-- C5 witness: a schema whose enumeration raises yields exactly one failure
keyed by the schema name, and the following schema is still processed. -/
theorem schema_fault_containment_witness :
    failInspector.get_table_names "s1" = .error "connection refused"
    ∧ (loop_tables allowAllCfg failInspector "s1"
          = ([], SQLSourceReport.report_failure {} "s1"
              ("Tables error: " ++ "connection refused"))
        ∧ common_run_schemas allowAllCfg failInspector ["s1", "s2"]
            = ((common_run_schemas allowAllCfg failInspector ["s2"]).1,
                ("s1", "Tables error: " ++ "connection refused")
                  :: (common_run_schemas allowAllCfg failInspector ["s2"]).2)) :=
  ⟨rfl, (schema_fault_containment allowAllCfg failInspector "s1").1
    "connection refused" ["s2"] rfl⟩

/-- C5 counterexample: an exception while processing one table is recorded as
a warning keyed `schema.table`, not as a scan failure keyed by the schema
name — the failure list stays empty. -/
theorem loop_tables_entity_error_is_warning :
    (loop_tables allowAllCfg boomInspector "s1").2.failures = []
    ∧ (loop_tables allowAllCfg boomInspector "s1").2.warnings
        = [("s1.t1", "Ingestion error: boom")] :=
  ⟨rfl, rfl⟩

/-- The aspects accumulated inside the per-table `DatasetSnapshot`. -/
inductive AspectKind
  | statusA | propertiesA | schemaMetadataA
deriving DecidableEq, Repr

/-- The change records `VerticaSource.loop_tables` emits per admitted table. -/
inductive VRecord
  | ownership
  | containerMembership
  | snapshot (aspects : List AspectKind)
  | platformInstance
  | subTypesR
  | domainR
deriving DecidableEq, Repr

/-- The per-table emission of `VerticaSource.loop_tables` (sql/vertica.py
lines 296-372), translated statement by statement in source order: the
ownership association is yielded first (line 303); the snapshot is created
with the status aspect (line 308) and then accumulates the properties
aspect (line 319) and the schema aspect (line 338); the container-membership
units are yielded (line 341) before the snapshot work unit itself
(lines 344-348); then the platform-instance aspect when configured
(lines 350-354), the sub-type aspect (lines 355-363), and the domain
association when configured (lines 364-372). -/
def vertica_process_table_records (platform_instance domain : Bool) :
    List VRecord := Id.run do
  let mut out : List VRecord := []
  out := out ++ [VRecord.ownership]
  let mut aspects : List AspectKind := [AspectKind.statusA]
  aspects := aspects ++ [AspectKind.propertiesA]
  aspects := aspects ++ [AspectKind.schemaMetadataA]
  out := out ++ [VRecord.containerMembership]
  out := out ++ [VRecord.snapshot aspects]
  if platform_instance then
    out := out ++ [VRecord.platformInstance]
  out := out ++ [VRecord.subTypesR]
  if domain then
    out := out ++ [VRecord.domainR]
  return out

/-- The record carrying the existence/status aspect (the snapshot MCE). -/
def isStatusBearing : VRecord → Bool
  | .snapshot _ => true
  | _ => false

/-- The container-membership record. -/
def isContainerRec : VRecord → Bool
  | .containerMembership => true
  | _ => false

/-- C4 counterexample: in the emitted sequence the container-membership
record precedes the record carrying the existence/status (and properties and
schema) aspects, so the claimed order — status, properties, schema, then
container membership, with no dependent record before the root — is false. -/
theorem vertica_emission_container_precedes_status :
    (vertica_process_table_records false false).findIdx isContainerRec
        < (vertica_process_table_records false false).findIdx isStatusBearing
    ∧ ¬ ((vertica_process_table_records false false).findIdx isStatusBearing
        < (vertica_process_table_records false false).findIdx isContainerRec) := by
  decide

/-- C4 amended theorem: for every admitted table the records are emitted in
the fixed order: (1) ownership association, (2) container-membership record,
(3) a single snapshot record carrying the existence/status, properties and
schema/fields aspects in that internal order, (4) platform-instance record
(only when a platform instance is configured), (5) sub-type record,
(6) domain association (only when a domain is configured); in particular the
container-membership record precedes the status-bearing snapshot record. -/
theorem vertica_emission_order :
    ∀ (pi dom : Bool),
      vertica_process_table_records pi dom
        = [VRecord.ownership, VRecord.containerMembership,
            VRecord.snapshot [AspectKind.statusA, AspectKind.propertiesA,
              AspectKind.schemaMetadataA]]
          ++ (if pi then [VRecord.platformInstance] else [])
          ++ [VRecord.subTypesR]
          ++ (if dom then [VRecord.domainR] else []) := by
  intro pi dom
  cases pi <;> cases dom <;> rfl

end DatahubVertica
